import Mathlib

/-!
Shallow embedding of the browser lifecycle manager (src/browser_manager.py)
of the playwright-mcp-server repository, together with the validation and
effect structure of the navigate and screenshot tool handlers
(src/server.py), and theorems settling the spec claims about them.

Exceptions are modelled as classes with the isinstance facts the except
clauses depend on; awaited external steps that can fail are driven by an
explicit failure plan; the manager state is explicit and passed through
every operation.
-/

namespace PlaywrightMCP

/-- Classes of Python exceptions that can escape the initialization steps of
`ensure_browser`.  This models the isinstance-based matching of the except
clauses: the playwright package defines its own TimeoutError as a subclass
of playwright `Error` (imported by browser_manager.py as `PlaywrightError`),
NOT of the builtin TimeoutError, and browser_manager.py imports only
`Error as PlaywrightError`, so its bare `except TimeoutError` clause refers
to the builtin class. -/
inductive Exc
  | builtinTimeout
  | pwTimeout
  | pwError
  | otherError
deriving DecidableEq, Repr

/-- Matched by the bare `except TimeoutError` clause (the builtin class). -/
def Exc.isBuiltinTimeout : Exc → Bool
  | .builtinTimeout => true
  | _ => false

/-- Matched by the `except PlaywrightError` clause (playwright `Error`, of
which the playwright TimeoutError is a subclass). -/
def Exc.isPlaywrightError : Exc → Bool
  | .pwTimeout => true
  | .pwError => true
  | _ => false

/-- The classified exceptions ensure_browser re-raises from its except
clauses: a builtin TimeoutError naming the configured budget, a playwright
error with the install hint, or a RuntimeError for anything else. -/
inductive Raised
  | launchTimeout (msg : String)
  | launchError (msg : String)
  | internalError (msg : String)
deriving DecidableEq, Repr

/-- The three error classes of `Raised`, without their message payloads. -/
inductive RaisedKind
  | launchTimeout
  | launchError
  | internalError
deriving DecidableEq, Repr

def Raised.kind : Raised → RaisedKind
  | .launchTimeout _ => .launchTimeout
  | .launchError _ => .launchError
  | .internalError _ => .internalError

/-- Static configuration of the manager, resolved from the environment at
process start (browser_manager.py lines 24-28). -/
structure Config where
  headless : Bool
  browser_timeout : Nat
  viewport_width : Nat
  viewport_height : Nat
deriving DecidableEq, Repr

/-- The documented defaults: headless, 30000 ms, 1920 by 1080. -/
def cfgDefault : Config :=
  { headless := true, browser_timeout := 30000,
    viewport_width := 1920, viewport_height := 1080 }

/-- The playwright driver object (the value of async_playwright().start()).
Stopping it terminates the underlying engine-host driver process; the flag
records that it has been stopped. -/
structure Driver where
  stopped : Bool
deriving DecidableEq, Repr

/-- A page object: its closed flag, the viewport it was created with, and
its current url. -/
structure PageObj where
  closed : Bool
  viewport : Nat × Nat
  url : String
deriving DecidableEq, Repr

/-- The state of the singleton BrowserManager plus the world of engines it
has launched.  `engines` records, in launch order, whether each launched
engine is still connected, so an engine dropped from the slot without being
closed stays visible as live; `browser` is the `_browser` slot as an index
into `engines`; `page` is the `_page` slot; `playwright` is the
`_playwright` slot. -/
structure MgrState where
  playwright : Option Driver
  engines : List Bool
  browser : Option Nat
  page : Option PageObj
deriving DecidableEq, Repr

/-- The state before a first-ever acquisition: every slot empty, no engine
ever launched. -/
def mgrInit : MgrState :=
  { playwright := none, engines := [], browser := none, page := none }

/-- How many launched engines are still connected. -/
def liveEngines (s : MgrState) : Nat :=
  s.engines.count true

/-- The four awaited initialization steps inside the try block of
ensure_browser (browser_manager.py lines 49-69). -/
inductive InitStep
  | startDriver
  | launch
  | newContext
  | newPage
deriving DecidableEq, Repr

/-- Failure injection for one ensure_browser attempt: at most one step
raises, with the given exception class; `none` is a fully successful
attempt. -/
structure FailPlan where
  failAt : Option (InitStep × Exc)
deriving DecidableEq, Repr

/-- A fully successful attempt. -/
def fpNone : FailPlan := { failAt := none }

def FailPlan.failsAt (fp : FailPlan) (st : InitStep) : Option Exc :=
  match fp.failAt with
  | some (st2, e) => if st2 = st then some e else none
  | none => none

/-- The except clauses of ensure_browser (browser_manager.py lines 71-84):
a builtin TimeoutError is re-raised as a TimeoutError naming the configured
budget; a playwright error (which includes the playwright TimeoutError) is
re-raised as a PlaywrightError carrying the install-browser-binaries hint;
anything else is re-raised as a RuntimeError. -/
def classify (cfg : Config) (e : Exc) : Raised :=
  if e.isBuiltinTimeout then
    .launchTimeout ("Browser launch timed out after "
      ++ toString cfg.browser_timeout
      ++ "ms. Try increasing BROWSER_TIMEOUT in .env")
  else if e.isPlaywrightError then
    .launchError ("Failed to launch browser. Ensure Playwright browsers are installed with playwright install chromium")
  else
    .internalError "Unexpected error during browser initialization"

/-- Modelled from the spec: whether a launch can be issued through the
driver slot.  The playwright package is external to this repository; per the
spec (section 4.1, cleanup closes "the underlying engine-host process"), a
stopped driver has no engine-host process left, so a launch issued through
it raises an engine-level playwright error instead of producing an engine,
while a live driver launches a new connected engine. -/
def driverCanLaunch : Option Driver → Bool
  | some d => !d.stopped
  | none => false

/-- The part of the try block from the engine launch on (browser_manager.py
lines 55-69), run once the driver slot is populated: a successful launch
appends a connected engine and assigns the `_browser` slot; a successful
page creation assigns the `_page` slot with the configured viewport.  An
exception at any step is classified and re-raised, keeping the field
assignments already made (the source resets nothing on failure). -/
def launchPhase (cfg : Config) (fp : FailPlan) (s : MgrState) :
    MgrState × Except Raised PageObj :=
  if !driverCanLaunch s.playwright then
    (s, .error (classify cfg .pwError))
  else
    match fp.failsAt .launch with
    | some e => (s, .error (classify cfg e))
    | none =>
      let s2 : MgrState :=
        { s with engines := s.engines ++ [true], browser := some s.engines.length }
      match fp.failsAt .newContext with
      | some e => (s2, .error (classify cfg e))
      | none =>
        match fp.failsAt .newPage with
        | some e => (s2, .error (classify cfg e))
        | none =>
          let pg : PageObj :=
            { closed := false,
              viewport := (cfg.viewport_width, cfg.viewport_height),
              url := "about:blank" }
          ({ s2 with page := some pg }, .ok pg)

/-- The whole try block of ensure_browser (browser_manager.py lines 49-84):
the driver is started only when the `_playwright` slot is empty, then the
launch phase runs. -/
def initAttempt (cfg : Config) (fp : FailPlan) (s : MgrState) :
    MgrState × Except Raised PageObj :=
  match s.playwright with
  | none =>
    match fp.failsAt .startDriver with
    | some e => (s, .error (classify cfg e))
    | none => launchPhase cfg fp { s with playwright := some { stopped := false } }
  | some _ => launchPhase cfg fp s

/-- ensure_browser (browser_manager.py lines 36-86): under the lock, if the
`_page` slot is empty or the page is closed, run the initialization attempt;
otherwise return the existing page with the state unchanged. -/
def ensure_browser (cfg : Config) (fp : FailPlan) (s : MgrState) :
    MgrState × Except Raised PageObj :=
  match s.page with
  | some p => if p.closed then initAttempt cfg fp s else (s, .ok p)
  | none => initAttempt cfg fp s

/-- Failure injection for one _cleanup_browser run: whether each of the
three close calls raises.  Each is swallowed by its own except clause, so a
raising close leaves its resource untouched while the later steps still
run. -/
structure CleanupFailPlan where
  pageCloseFails : Bool
  browserCloseFails : Bool
  stopFails : Bool
deriving DecidableEq, Repr

/-- A cleanup in which every close call succeeds. -/
def cfpNone : CleanupFailPlan :=
  { pageCloseFails := false, browserCloseFails := false, stopFails := false }

/-- First try block of _cleanup_browser (browser_manager.py lines 117-121):
close the page if present and open; any exception is swallowed. -/
def closePageStep (cfp : CleanupFailPlan) (s : MgrState) : MgrState :=
  match s.page with
  | some p =>
    if !p.closed && !cfp.pageCloseFails then
      { s with page := some { p with closed := true } }
    else s
  | none => s

/-- Second try block of _cleanup_browser (browser_manager.py lines 123-127):
close the engine in the `_browser` slot if present and connected; any
exception is swallowed. -/
def closeBrowserStep (cfp : CleanupFailPlan) (s : MgrState) : MgrState :=
  match s.browser with
  | some i =>
    if s.engines.getD i false && !cfp.browserCloseFails then
      { s with engines := s.engines.set i false }
    else s
  | none => s

/-- Third try block of _cleanup_browser (browser_manager.py lines 129-133):
stop the driver if present; any exception is swallowed. -/
def stopDriverStep (cfp : CleanupFailPlan) (s : MgrState) : MgrState :=
  match s.playwright with
  | some d =>
    if !cfp.stopFails then { s with playwright := some { d with stopped := true } }
    else s
  | none => s

/-- _cleanup_browser (browser_manager.py lines 115-133): the three
independent close steps in order, each swallowing its own errors. -/
def cleanup_browser (cfp : CleanupFailPlan) (s : MgrState) : MgrState :=
  stopDriverStep cfp (closeBrowserStep cfp (closePageStep cfp s))

/-- cleanup (browser_manager.py lines 135-146): under the lock, run
_cleanup_browser, then clear all three slots.  Total: it returns a state for
every input and never raises. -/
def cleanup (cfp : CleanupFailPlan) (s : MgrState) : MgrState :=
  let s1 := cleanup_browser cfp s
  { s1 with playwright := none, browser := none, page := none }

/-- restart_browser (browser_manager.py lines 97-113): under the lock, run
_cleanup_browser and clear the `_browser` and `_page` slots — the
`_playwright` slot is NOT cleared — then run ensure_browser. -/
def restart_browser (cfg : Config) (cfp : CleanupFailPlan) (fp : FailPlan)
    (s : MgrState) : MgrState × Except Raised PageObj :=
  let s1 := cleanup_browser cfp s
  let s2 : MgrState := { s1 with browser := none, page := none }
  ensure_browser cfg fp s2

/-- is_initialized (browser_manager.py lines 148-160): the `_browser` slot
holds a connected engine and the `_page` slot holds a page that is not
closed. -/
def is_initialized (s : MgrState) : Bool :=
  match s.browser, s.page with
  | some i, some p => s.engines.getD i false && !p.closed
  | _, _ => false

/-- get_viewport_size (browser_manager.py lines 173-189): the live page
viewport when is_initialized and a page is present, otherwise the configured
defaults.  A pure total function of the state: it mutates nothing and always
returns a pair. -/
def get_viewport_size (cfg : Config) (s : MgrState) : Nat × Nat :=
  if is_initialized s then
    match s.page with
    | some p => p.viewport
    | none => (cfg.viewport_width, cfg.viewport_height)
  else (cfg.viewport_width, cfg.viewport_height)

/-- Environment action from the spec scenarios (section 8): the page is
closed out of band, for example by a tab crash, leaving every other resource
as it was. -/
def closePageOOB (s : MgrState) : MgrState :=
  { s with page := s.page.map fun p => { p with closed := true } }

/-- Whether an ensure_browser or restart_browser call returned a page rather
than raising. -/
def resultOk : Except Raised PageObj → Bool
  | .ok _ => true
  | .error _ => false

/-- The class of the raised error of a failed call, if it failed. -/
def raisedKindOf : Except Raised PageObj → Option RaisedKind
  | .error r => some r.kind
  | .ok _ => none

/-- The uniform error envelope built by create_error_response (server.py
lines 81-105); `extra` holds the echoed keyword context fields. -/
structure ErrEnvelope where
  success : Bool
  error : String
  error_type : String
  suggestion : String
  extra : List (String × String)
deriving DecidableEq, Repr

/-- create_error_response (server.py lines 81-105). -/
def create_error_response (error_type message suggestion : String)
    (kwargs : List (String × String)) : ErrEnvelope :=
  { success := false, error := message, error_type := error_type,
    suggestion := suggestion, extra := kwargs }

/-- Python str.startswith, on the character lists of the strings. -/
def startswith (s pre : String) : Bool :=
  pre.toList.isPrefixOf s.toList

/-- Substring containment, modelling the Python `in` operator on strings
for a non-empty needle. -/
def containsSub (hay needle : String) : Bool :=
  1 < (hay.splitOn needle).length

/-- parse_playwright_error (server.py lines 45-78): substring classification
of the lowercased message into an error type and a suggestion; the timeout
arm also matches when the exception is an instance of the builtin
TimeoutError or the playwright TimeoutError, recorded by the flag. -/
def parse_playwright_error (message : String) (isTimeoutInstance : Bool) :
    String × String :=
  let m := message.toLower
  if containsSub m "net::err_name_not_resolved" || containsSub m "dns" then
    ("NetworkError", "DNS lookup failed. Check URL spelling and internet connection")
  else if containsSub m "net::err_connection_refused" then
    ("NetworkError", "Connection refused. The server may be down or unreachable")
  else if containsSub m "ssl" || containsSub m "certificate" then
    ("NetworkError", "SSL certificate error. The site may have security issues")
  else if containsSub m "timeout" || isTimeoutInstance then
    ("TimeoutError", "Operation timed out. Try increasing timeout or check if site is accessible")
  else if containsSub m "element is not visible" then
    ("ElementNotFound", "Element exists but not visible. Try scrolling or waiting for it to appear")
  else if containsSub m "unable to find element" || containsSub m "no element found" then
    ("ElementNotFound", "Element not found with given selector. Check selector syntax")
  else if containsSub m "element is disabled" || containsSub m "readonly" then
    ("InvalidElementState", "Element is disabled or read-only and cannot be modified")
  else
    ("UnknownError", "An unexpected error occurred. Check the error message for details")

/-- Timeouts configured in server.py (lines 23-25 defaults). -/
def NAVIGATION_TIMEOUT : Nat := 30000

def ELEMENT_TIMEOUT : Nat := 10000

def SCREENSHOT_TIMEOUT : Nat := 5000

/-- Outcome of the browser phase of navigate (get_page, page.goto,
page.title), external to the validation logic: it completes with a final url
and title, or raises a playwright TimeoutError, or raises some other
exception carrying the given message and timeout-instance flag. -/
inductive NavPhase
  | ok (finalUrl title : String)
  | raisesTimeout
  | raisesOther (message : String) (isTimeoutInstance : Bool)
deriving DecidableEq, Repr

/-- What navigate returns: the success map or the error envelope. -/
inductive NavResult
  | ok (url title : String)
  | err (e : ErrEnvelope)
deriving DecidableEq, Repr

/-- navigate (server.py lines 109-162) with the browser phase abstracted by
`phase`.  The boolean in the result records whether the browser was touched
at all, that is whether control reached browser_manager.get_page. -/
def navigate (url : String) (wait_until : String) (phase : NavPhase) :
    NavResult × Bool :=
  if !(startswith url "http://" || startswith url "https://") then
    (.err (create_error_response "ValidationError"
        "URL must start with http:// or https://"
        "Add http:// or https:// to the URL" [("url", url)]), false)
  else if !(wait_until = "load" || wait_until = "domcontentloaded"
      || wait_until = "networkidle") then
    (.err (create_error_response "ValidationError"
        ("Invalid wait_until value: " ++ wait_until)
        "Use load, domcontentloaded, or networkidle" [("url", url)]), false)
  else
    match phase with
    | .ok u t => (.ok u t, true)
    | .raisesTimeout =>
      (.err (create_error_response "TimeoutError"
          ("Navigation timed out after " ++ toString NAVIGATION_TIMEOUT ++ "ms")
          "Increase NAVIGATION_TIMEOUT or check if site is accessible"
          [("url", url)]), true)
    | .raisesOther m it =>
      let et := parse_playwright_error m it
      (.err (create_error_response et.1 m et.2 [("url", url)]), true)

/-- The name (final component) of a POSIX path as pathlib computes it:
empty components and single-dot components do not count. -/
def pathName (p : String) : String :=
  match ((p.splitOn "/").filter fun c => c ≠ "" && c ≠ ".").getLast? with
  | some n => n
  | none => ""

/-- The suffix (extension) of a path as pathlib computes it: the part of the
name from its last dot; empty when the name has no dot, when its only dot
starts it, or when the dot ends it. -/
def pathSuffix (p : String) : String :=
  let cs := (pathName p).toList
  let r := cs.reverse.indexOf '.'
  if r < cs.length then
    let i := cs.length - 1 - r
    if 0 < i ∧ i + 1 < cs.length then String.mk (cs.drop i) else ""
  else ""

/-- The extensions screenshot accepts (server.py line 333). -/
def valid_extensions : List String := [".png", ".jpg", ".jpeg"]

/-- Outcome of the browser phase of screenshot (get_page and
page.screenshot): the image is written with the given size, or a playwright
TimeoutError is raised, or a PermissionError, or some other exception. -/
inductive ShotPhase
  | ok (fileSize : Nat)
  | raisesTimeout
  | raisesPermission (message : String)
  | raisesOther (message : String) (isTimeoutInstance : Bool)
deriving DecidableEq, Repr

/-- Effects of one screenshot call on the world outside its response:
whether the parent directories of the target were created, whether the image
file was written, and whether the browser was touched. -/
structure FsEffects where
  mkdirParent : Bool
  fileWritten : Bool
  browserTouched : Bool
deriving DecidableEq, Repr

/-- What screenshot returns: the success map or the error envelope. -/
inductive ShotResult
  | ok (path : String) (fileSize : Nat) (fullPage : Bool) (viewport : Nat × Nat)
  | err (e : ErrEnvelope)
deriving DecidableEq, Repr

/-- screenshot (server.py lines 311-383) with the browser phase abstracted:
the empty-path check, then the extension check, then the parent-directory
creation, then the browser phase.  The directory creation itself is modelled
as succeeding (a raising mkdir would be answered by the PermissionError
arm); the viewport of the success response comes from get_viewport_size on
the manager state. -/
def screenshot (cfg : Config) (s : MgrState) (path : String)
    (full_page : Bool) (phase : ShotPhase) : ShotResult × FsEffects :=
  if path.trim = "" then
    (.err (create_error_response "ValidationError" "Path cannot be empty"
        "Provide a valid file path" [("path", path)]),
      { mkdirParent := false, fileWritten := false, browserTouched := false })
  else if !(valid_extensions.contains (pathSuffix path).toLower) then
    (.err (create_error_response "ValidationError"
        ("Invalid file extension: " ++ pathSuffix path)
        "Use one of: .png, .jpg, .jpeg" [("path", path)]),
      { mkdirParent := false, fileWritten := false, browserTouched := false })
  else
    match phase with
    | .ok size =>
      (.ok path size full_page (get_viewport_size cfg s),
        { mkdirParent := true, fileWritten := true, browserTouched := true })
    | .raisesTimeout =>
      (.err (create_error_response "TimeoutError"
          ("Screenshot timed out after " ++ toString SCREENSHOT_TIMEOUT ++ "ms")
          "Try increasing SCREENSHOT_TIMEOUT" [("path", path)]),
        { mkdirParent := true, fileWritten := false, browserTouched := true })
    | .raisesPermission m =>
      (.err (create_error_response "FileSystemError"
          ("Permission denied: " ++ m)
          "Check file or directory write permissions" [("path", path)]),
        { mkdirParent := true, fileWritten := false, browserTouched := true })
    | .raisesOther m it =>
      let et := parse_playwright_error m it
      (.err (create_error_response et.1 m et.2 [("path", path)]),
        { mkdirParent := true, fileWritten := false, browserTouched := true })

/-- The error type of a screenshot result, when it is an error envelope. -/
def shotErrorType : ShotResult → Option String
  | .err e => some e.error_type
  | .ok _ _ _ _ => none

/-- The envelope navigate returns for a url without an http or https
scheme: ValidationError, a suggestion, and the url echoed back. -/
def navSchemeErr (url : String) : ErrEnvelope :=
  { success := false, error := "URL must start with http:// or https://",
    error_type := "ValidationError",
    suggestion := "Add http:// or https:// to the URL",
    extra := [("url", url)] }

/-- The page a fully successful initialization attempt creates and stores:
open, with the configured viewport, on the blank document. -/
def freshPage (cfg : Config) : PageObj :=
  { closed := false, viewport := (cfg.viewport_width, cfg.viewport_height),
    url := "about:blank" }

/-- A page that has been closed while the rest of its handle stayed alive. -/
def pgDead : PageObj :=
  { closed := true, viewport := (1920, 1080), url := "https://example.com/" }

/-- The state after one successful acquisition whose page has since been
closed out of band while its engine stayed connected. -/
def sDead : MgrState :=
  { playwright := some { stopped := false }, engines := [true],
    browser := some 0, page := some pgDead }

/-- A page object that is not closed. -/
def pgOpen : PageObj :=
  { closed := false, viewport := (1920, 1080), url := "https://example.com/" }

/-- The state after one successful acquisition whose engine has disconnected
out of band while its page object is not yet closed. -/
def sDisc : MgrState :=
  { playwright := some { stopped := false }, engines := [false],
    browser := some 0, page := some pgOpen }

/-! Helper lemmas shared by the claim theorems. -/

theorem getD_set_self (l : List Bool) (i : Nat) (b : Bool) :
    (l.set i b).getD i false = if i < l.length then b else false := by
  induction l generalizing i with
  | nil => simp
  | cons a t ih =>
    cases i with
    | zero => simp
    | succ n => simpa using ih n

theorem getD_true_lt (l : List Bool) (i : Nat) (h : l.getD i false = true) :
    i < l.length := by
  by_contra hge
  rw [List.getD_eq_default _ _ (Nat.le_of_not_lt hge)] at h
  exact Bool.false_ne_true h

theorem closePageStep_frame (cfp : CleanupFailPlan) (s : MgrState) :
    (closePageStep cfp s).browser = s.browser
      ∧ (closePageStep cfp s).engines = s.engines
      ∧ (closePageStep cfp s).playwright = s.playwright := by
  cases hs : s.page <;> simp [closePageStep, hs] <;> split <;> simp

theorem stopDriverStep_frame (cfp : CleanupFailPlan) (s : MgrState) :
    (stopDriverStep cfp s).browser = s.browser
      ∧ (stopDriverStep cfp s).engines = s.engines
      ∧ (stopDriverStep cfp s).page = s.page := by
  cases hs : s.playwright <;> simp [stopDriverStep, hs] <;> split <;> simp

theorem initAttempt_some (cfg : Config) (s : MgrState) (d : Driver)
    (hd : s.playwright = some d) (hds : d.stopped = false) :
    initAttempt cfg fpNone s =
      ({ s with engines := s.engines ++ [true],
                browser := some s.engines.length,
                page := some (freshPage cfg) },
        .ok (freshPage cfg)) := by
  simp [initAttempt, hd, FailPlan.failsAt, fpNone, launchPhase, driverCanLaunch, hds, freshPage]

theorem initAttempt_none (cfg : Config) (s : MgrState) (h : s.playwright = none) :
    initAttempt cfg fpNone s =
      ({ s with playwright := some { stopped := false },
                engines := s.engines ++ [true],
                browser := some s.engines.length,
                page := some (freshPage cfg) },
        .ok (freshPage cfg)) := by
  simp [initAttempt, h, FailPlan.failsAt, fpNone, launchPhase, driverCanLaunch, freshPage]

theorem closeBrowserStep_closes (cfp : CleanupFailPlan) (s : MgrState) (i : Nat)
    (hb : s.browser = some i) (hf : cfp.browserCloseFails = false) :
    (closeBrowserStep cfp s).engines.getD i false = false := by
  unfold closeBrowserStep
  rw [hb, hf]
  cases hc : s.engines.getD i false
  · simp only [hc, Bool.not_false, Bool.and_true, Bool.false_eq_true, if_false]
  · simp only [hc, Bool.not_false, Bool.and_true, if_true]
    show (s.engines.set i false).getD i false = false
    rw [getD_set_self]
    split <;> rfl

/-! Claim theorems. -/

/-- C1 counterexample: a first-ever acquisition in which opening the context
fails.  The call raises as claimed, but the `_browser` slot is left holding
the newly launched engine (index 0, still connected), so the handle state is
not absent as the claim requires. -/
theorem C1_counterexample :
    resultOk (ensure_browser cfgDefault { failAt := some (.newContext, .pwError) } mgrInit).2 = false
    ∧ (ensure_browser cfgDefault { failAt := some (.newContext, .pwError) } mgrInit).1.browser = some 0
    ∧ liveEngines (ensure_browser cfgDefault { failAt := some (.newContext, .pwError) } mgrInit).1 = 1 :=
  ⟨rfl, rfl, rfl⟩

/-- C1 amended: for a failing first-ever acquisition, the call always raises;
a failure while starting the driver or launching the engine leaves the
browser and page slots absent, but a failure while opening the context or
the page leaves the browser slot holding the newly launched engine, with
only the page slot still absent. -/
theorem C1_amended : ∀ e : Exc,
    (resultOk (ensure_browser cfgDefault { failAt := some (.startDriver, e) } mgrInit).2 = false
      ∧ (ensure_browser cfgDefault { failAt := some (.startDriver, e) } mgrInit).1.browser = none
      ∧ (ensure_browser cfgDefault { failAt := some (.startDriver, e) } mgrInit).1.page = none)
    ∧ (resultOk (ensure_browser cfgDefault { failAt := some (.launch, e) } mgrInit).2 = false
      ∧ (ensure_browser cfgDefault { failAt := some (.launch, e) } mgrInit).1.browser = none
      ∧ (ensure_browser cfgDefault { failAt := some (.launch, e) } mgrInit).1.page = none)
    ∧ (resultOk (ensure_browser cfgDefault { failAt := some (.newContext, e) } mgrInit).2 = false
      ∧ (ensure_browser cfgDefault { failAt := some (.newContext, e) } mgrInit).1.browser = some 0
      ∧ (ensure_browser cfgDefault { failAt := some (.newContext, e) } mgrInit).1.page = none)
    ∧ (resultOk (ensure_browser cfgDefault { failAt := some (.newPage, e) } mgrInit).2 = false
      ∧ (ensure_browser cfgDefault { failAt := some (.newPage, e) } mgrInit).1.browser = some 0
      ∧ (ensure_browser cfgDefault { failAt := some (.newPage, e) } mgrInit).1.page = none) := by
  intro e
  cases e <;>
    exact ⟨⟨rfl, rfl, rfl⟩, ⟨rfl, rfl, rfl⟩, ⟨rfl, rfl, rfl⟩, ⟨rfl, rfl, rfl⟩⟩

/-- C2 counterexample: acquire on a cold manager, close the page out of
band, acquire again.  The second acquisition finds the page dead and
re-initializes, but never closes the previously launched engine, so two live
engines exist afterwards — refuting at-most-one-live-engine. -/
theorem C2_counterexample :
    liveEngines (ensure_browser cfgDefault fpNone
      (closePageOOB (ensure_browser cfgDefault fpNone mgrInit).1)).1 = 2 := rfl

/-- C2 amended: when acquirePage finds the page dead while the slot engine
is still connected and the driver is live, the successful re-initialization
launches a fresh engine and leaves the previous engine connected alongside
it, so at least two live engines exist afterwards.  The slot moves to the
new engine; the old one is simply dropped without being closed. -/
theorem C2_amended (s : MgrState) (i : Nat) (p : PageObj)
    (hb : s.browser = some i) (hconn : s.engines.getD i false = true)
    (hp : s.page = some p) (hclosed : p.closed = true)
    (hdrv : driverCanLaunch s.playwright = true) :
    resultOk (ensure_browser cfgDefault fpNone s).2 = true
    ∧ (ensure_browser cfgDefault fpNone s).1.browser = some s.engines.length
    ∧ (ensure_browser cfgDefault fpNone s).1.engines.getD i false = true
    ∧ (ensure_browser cfgDefault fpNone s).1.engines.getD s.engines.length false = true
    ∧ i < s.engines.length
    ∧ 2 ≤ liveEngines (ensure_browser cfgDefault fpNone s).1 := by
  have hi : i < s.engines.length := getD_true_lt _ _ hconn
  obtain ⟨d, hd⟩ : ∃ d, s.playwright = some d := by
    cases hpw : s.playwright with
    | none => rw [hpw] at hdrv; simp [driverCanLaunch] at hdrv
    | some d => exact ⟨d, rfl⟩
  have hds : d.stopped = false := by
    rw [hd] at hdrv
    simpa [driverCanLaunch] using hdrv
  have hred : ensure_browser cfgDefault fpNone s =
      ({ s with engines := s.engines ++ [true],
                browser := some s.engines.length,
                page := some (freshPage cfgDefault) },
        .ok (freshPage cfgDefault)) := by
    have hstep : ensure_browser cfgDefault fpNone s = initAttempt cfgDefault fpNone s := by
      simp [ensure_browser, hp, hclosed]
    rw [hstep, initAttempt_some cfgDefault s d hd hds]
  refine ⟨?_, ?_, ?_, ?_, hi, ?_⟩
  · rw [hred]; rfl
  · rw [hred]
  · rw [hred]
    show (s.engines ++ [true]).getD i false = true
    rw [List.getD_append s.engines [true] false i hi]
    exact hconn
  · rw [hred]
    show (s.engines ++ [true]).getD s.engines.length false = true
    rw [List.getD_append_right s.engines [true] false s.engines.length (Nat.le_refl _)]
    simp
  · rw [hred]
    show 2 ≤ (s.engines ++ [true]).count true
    have hmem : true ∈ s.engines := by
      have h1 := List.getD_eq_getElem s.engines false hi
      rw [hconn] at h1
      exact h1 ▸ List.getElem_mem hi
    have hcount : 1 ≤ s.engines.count true := List.count_pos_iff.mpr hmem
    have hone : List.count true [true] = 1 := rfl
    simp only [List.count_append]
    omega

/-- C2 witness: the amended theorem at the concrete dead-page state. -/
theorem C2_amended_witness :
    resultOk (ensure_browser cfgDefault fpNone sDead).2 = true
    ∧ (ensure_browser cfgDefault fpNone sDead).1.browser = some sDead.engines.length
    ∧ (ensure_browser cfgDefault fpNone sDead).1.engines.getD 0 false = true
    ∧ (ensure_browser cfgDefault fpNone sDead).1.engines.getD sDead.engines.length false = true
    ∧ 0 < sDead.engines.length
    ∧ 2 ≤ liveEngines (ensure_browser cfgDefault fpNone sDead).1 :=
  C2_amended sDead 0 pgDead rfl rfl rfl rfl rfl

/-- C3: restart_browser immediately after one fully successful acquisition
raises instead of returning a fresh page: the teardown stopped the driver,
restart clears only the `_browser` and `_page` slots, so the
re-initialization finds the `_playwright` slot occupied, skips restarting
the driver, and the launch over the stopped driver fails with the
engine-level launch error.  The stale stopped driver is still in the slot
afterwards. -/
theorem C3_restart_fails :
    resultOk (restart_browser cfgDefault cfpNone fpNone
        (ensure_browser cfgDefault fpNone mgrInit).1).2 = false
    ∧ raisedKindOf (restart_browser cfgDefault cfpNone fpNone
        (ensure_browser cfgDefault fpNone mgrInit).1).2 = some .launchError
    ∧ (restart_browser cfgDefault cfpNone fpNone
        (ensure_browser cfgDefault fpNone mgrInit).1).1.playwright
        = some { stopped := true } :=
  ⟨rfl, rfl, rfl⟩

/-- C4 counterexample: a handle whose engine has disconnected while its page
is not closed.  The claim requires re-initialization; the code consults only
the page and returns the existing page with the state unchanged, even though
its own liveness predicate is_initialized reports the handle dead. -/
theorem C4_counterexample :
    ensure_browser cfgDefault fpNone sDisc = (sDisc, .ok pgOpen)
    ∧ is_initialized sDisc = false :=
  ⟨rfl, rfl⟩

/-- C4 amended: acquirePage performs full initialization if and only if the
page slot is empty or the page is closed; otherwise it returns the existing
page with the state unchanged, whatever the engine connection state.  When
it does initialize from a usable driver state, exactly one new engine is
launched and a fresh open page is returned and stored. -/
theorem C4_amended : ∀ (cfg : Config) (s : MgrState),
    (∀ p fp, s.page = some p → p.closed = false →
      ensure_browser cfg fp s = (s, .ok p))
    ∧ ((s.page = none ∨ ∃ p, s.page = some p ∧ p.closed = true) →
      (s.playwright = none ∨ driverCanLaunch s.playwright = true) →
      ∃ pg, (ensure_browser cfg fpNone s).2 = .ok pg ∧ pg.closed = false
        ∧ (ensure_browser cfg fpNone s).1.engines.length = s.engines.length + 1
        ∧ (ensure_browser cfg fpNone s).1.page = some pg) := by
  intro cfg s
  constructor
  · intro p fp hp hopen
    simp [ensure_browser, hp, hopen]
  · intro hdead hdrv
    have hinit : ensure_browser cfg fpNone s = initAttempt cfg fpNone s := by
      rcases hdead with hnone | ⟨p, hp, hclosed⟩
      · simp [ensure_browser, hnone]
      · simp [ensure_browser, hp, hclosed]
    rw [hinit]
    rcases hdrv with hnone | hcan
    · rw [initAttempt_none cfg s hnone]
      exact ⟨freshPage cfg, rfl, rfl, by simp, rfl⟩
    · obtain ⟨d, hd, hds⟩ : ∃ d, s.playwright = some d ∧ d.stopped = false := by
        cases hpw : s.playwright with
        | none => rw [hpw] at hcan; simp [driverCanLaunch] at hcan
        | some d =>
          rw [hpw] at hcan
          exact ⟨d, rfl, by simpa [driverCanLaunch] using hcan⟩
      rw [initAttempt_some cfg s d hd hds]
      exact ⟨freshPage cfg, rfl, rfl, by simp, rfl⟩

/-- C5: evaluation at the failing input.  Injecting a playwright
TimeoutError — the exception playwright raises when chromium.launch exceeds
the configured timeout — at the launch step of a first-ever acquisition:
the bare `except TimeoutError` clause refers to the builtin class, which the
playwright TimeoutError does not extend, so the error is caught by the
`except PlaywrightError` clause and re-raised as the LaunchError-class error
with the install hint, not as the LaunchTimeout-class error the claim and
the ensure_browser docstring require.  A builtin TimeoutError, by contrast,
is classified as LaunchTimeout. -/
theorem C5_pwTimeout_misclassified :
    raisedKindOf (ensure_browser cfgDefault { failAt := some (.launch, .pwTimeout) } mgrInit).2
      = some .launchError
    ∧ raisedKindOf (ensure_browser cfgDefault { failAt := some (.launch, .builtinTimeout) } mgrInit).2
      = some .launchTimeout
    ∧ raisedKindOf (ensure_browser cfgDefault { failAt := some (.launch, .pwError) } mgrInit).2
      = some .launchError
    ∧ raisedKindOf (ensure_browser cfgDefault { failAt := some (.launch, .otherError) } mgrInit).2
      = some .internalError :=
  ⟨rfl, rfl, rfl, rfl⟩

/-- C6: cleanup never raises — it is a total function into MgrState, every
close-step failure being swallowed — and for every state and any combination
of step failures it leaves all three slots cleared (the Absent state); a
failure closing the page does not prevent the engine close from happening;
a second cleanup right after a first changes nothing; and cleanup on the
never-initialized state is a no-op. -/
theorem C6_cleanup_idempotent_absent : ∀ (cfp cfp2 : CleanupFailPlan) (s : MgrState),
    ((cleanup cfp s).playwright = none ∧ (cleanup cfp s).browser = none
      ∧ (cleanup cfp s).page = none)
    ∧ cleanup cfp2 (cleanup cfp s) = cleanup cfp s
    ∧ cleanup cfp mgrInit = mgrInit
    ∧ (∀ i, s.browser = some i → cfp.browserCloseFails = false →
        (cleanup cfp s).engines.getD i false = false) := by
  intro cfp cfp2 s
  refine ⟨⟨rfl, rfl, rfl⟩, rfl, rfl, ?_⟩
  intro i hb hf
  obtain ⟨hYb, _, _⟩ := closePageStep_frame cfp s
  obtain ⟨_, hZe, _⟩ := stopDriverStep_frame cfp (closeBrowserStep cfp (closePageStep cfp s))
  show (stopDriverStep cfp (closeBrowserStep cfp (closePageStep cfp s))).engines.getD i false = false
  rw [hZe]
  exact closeBrowserStep_closes cfp (closePageStep cfp s) i (by rw [hYb, hb]) hf

/-- C7: is_initialized is true exactly when the `_browser` slot holds a
connected engine and the `_page` slot holds a page that is not closed, and
in the absent state it is false. -/
theorem C7_is_initialized_iff :
    (∀ s : MgrState,
      is_initialized s = true ↔
        ((∃ i, s.browser = some i ∧ s.engines.getD i false = true)
          ∧ ∃ p, s.page = some p ∧ p.closed = false))
    ∧ is_initialized mgrInit = false := by
  refine ⟨?_, rfl⟩
  intro s
  cases hb : s.browser <;> cases hp : s.page <;> simp [is_initialized, hb, hp]

/-- C8: get_viewport_size is a total pure function of the state — it never
fails and mutates nothing — returning the live page viewport when the
manager is ready and the statically configured defaults otherwise, in
particular on the never-initialized state. -/
theorem C8_viewport : ∀ (cfg : Config) (s : MgrState),
    (is_initialized s = false →
      get_viewport_size cfg s = (cfg.viewport_width, cfg.viewport_height))
    ∧ (∀ p, s.page = some p → is_initialized s = true →
      get_viewport_size cfg s = p.viewport)
    ∧ (is_initialized s = true → ∃ p, s.page = some p ∧ p.closed = false)
    ∧ get_viewport_size cfg mgrInit = (cfg.viewport_width, cfg.viewport_height) := by
  intro cfg s
  refine ⟨?_, ?_, ?_, rfl⟩
  · intro h
    simp [get_viewport_size, h]
  · intro p hp h
    simp [get_viewport_size, h, hp]
  · intro h
    cases hb : s.browser with
    | none => simp [is_initialized, hb] at h
    | some i =>
      cases hp : s.page with
      | none => simp [is_initialized, hb, hp] at h
      | some p =>
        simp [is_initialized, hb, hp] at h
        exact ⟨p, rfl, h.2⟩

/-- C9: a url that does not start with the http or https scheme
short-circuits in validation: navigate returns the ValidationError envelope
with a suggestion and the url echoed back, and the browser is never touched,
whatever the browser phase would have done. -/
theorem C9_navigate_validation : ∀ (url wait_until : String) (phase : NavPhase),
    startswith url "http://" = false → startswith url "https://" = false →
    navigate url wait_until phase = (.err (navSchemeErr url), false) := by
  intro url wait_until phase h1 h2
  simp [navigate, h1, h2, create_error_response, navSchemeErr]

/-- C9 witness: navigating to example.com without a scheme. -/
theorem C9_navigate_validation_witness :
    navigate "example.com" "load" (.ok "https://example.com/" "Example Domain")
      = (.err (navSchemeErr "example.com"), false) :=
  C9_navigate_validation "example.com" "load" (.ok "https://example.com/" "Example Domain")
    (by decide) (by decide)

/-- C10: a screenshot path that passes validation has its parent directories
created before the browser phase, so they exist afterwards whatever the
browser phase does, a timeout or launch failure included; a path failing
validation — empty after trimming, or with an extension other than png, jpg
or jpeg — creates no directory, writes no file, never touches the browser
and yields the ValidationError envelope; and the image file is written only
when the browser phase succeeds. -/
theorem C10_screenshot_effects : ∀ (cfg : Config) (s : MgrState) (path : String)
    (full_page : Bool) (phase : ShotPhase),
    (path.trim ≠ "" → (pathSuffix path).toLower ∈ valid_extensions →
      (screenshot cfg s path full_page phase).2.mkdirParent = true)
    ∧ ((path.trim = "" ∨ (pathSuffix path).toLower ∉ valid_extensions) →
      (screenshot cfg s path full_page phase).2
          = { mkdirParent := false, fileWritten := false, browserTouched := false }
        ∧ shotErrorType (screenshot cfg s path full_page phase).1 = some "ValidationError")
    ∧ ((screenshot cfg s path full_page phase).2.fileWritten = true →
      ∃ n, phase = .ok n) := by
  intro cfg s path full_page phase
  refine ⟨?_, ?_, ?_⟩
  · intro h1 h2
    cases phase <;> simp [screenshot, h1, h2]
  · intro h
    rcases h with h | h
    · constructor <;> simp [screenshot, h, create_error_response, shotErrorType]
    · by_cases h1 : path.trim = ""
      · constructor <;> simp [screenshot, h1, create_error_response, shotErrorType]
      · constructor <;> simp [screenshot, h1, h, create_error_response, shotErrorType]
  · intro h
    cases phase with
    | ok n => exact ⟨n, rfl⟩
    | raisesTimeout =>
      by_cases h1 : path.trim = ""
      · simp [screenshot, h1] at h
      · by_cases h2 : (pathSuffix path).toLower ∈ valid_extensions <;>
          simp [screenshot, h1, h2] at h
    | raisesPermission m =>
      by_cases h1 : path.trim = ""
      · simp [screenshot, h1] at h
      · by_cases h2 : (pathSuffix path).toLower ∈ valid_extensions <;>
          simp [screenshot, h1, h2] at h
    | raisesOther m it =>
      by_cases h1 : path.trim = ""
      · simp [screenshot, h1] at h
      · by_cases h2 : (pathSuffix path).toLower ∈ valid_extensions <;>
          simp [screenshot, h1, h2] at h

end PlaywrightMCP
